import Mathlib

/-!
Shallow embedding of the wikimapia scraper
(`source_code/utilities/scraping.py`): the link collector
(`check_last_page`, `get_wikimapia_links_from_html`) and the two
extraction classes `HTMLGeoScraper` and `APIGeoScraper`.

JSON-like values stand for the Python dictionaries the code builds;
Python exceptions that escape a function are modelled with `Except`,
and caught exceptions (`try`/`except` blocks) with the fallback value
the handler installs.
-/

/-- A JSON-like value: the shape of the dictionaries the scraper
returns (`json.dumps`-serialisable Python data). Python `None` is
`JValue.null`. -/
inductive JValue where
  | null : JValue
  | str : String → JValue
  | arr : List JValue → JValue
  | obj : List (String × JValue) → JValue

/-- Top-level keys of an object, in insertion order; `[]` for a
non-object. -/
def JValue.keys : JValue → List String
  | .obj l => l.map Prod.fst
  | _ => []

/-- Lookup of a top-level key in an object (first binding wins, as in
a Python dict where each key is assigned once). -/
def JValue.get : JValue → String → Option JValue
  | .obj l, k => (l.find? (fun p => p.1 = k)).map Prod.snd
  | _, _ => none

/-- Helper for `pySplit`: walk the characters, accumulating the
current token (reversed); whitespace ends a token, and empty tokens
are dropped. -/
def pySplitAux : List Char → List Char → List String
  | [], acc => if acc.isEmpty then [] else [String.mk acc.reverse]
  | c :: cs, acc =>
    if c.isWhitespace then
      if acc.isEmpty then pySplitAux cs []
      else String.mk acc.reverse :: pySplitAux cs []
    else pySplitAux cs (c :: acc)

/-- Python `str.split()` with no separator: split on runs of
whitespace, discarding empty pieces. -/
def pySplit (s : String) : List String :=
  pySplitAux s.data []

/-- Helper for `pySplitOn`: split at every occurrence of the
separator character, keeping empty pieces. -/
def pySplitOnAux (sep : Char) : List Char → List Char → List String
  | [], acc => [String.mk acc.reverse]
  | c :: cs, acc =>
    if c = sep then String.mk acc.reverse :: pySplitOnAux sep cs []
    else pySplitOnAux sep cs (c :: acc)

/-- Python `str.split(sep)` with an explicit one-character separator
(used by `APIGeoScraper.__init__` as `url.split('/')`). -/
def pySplitOn (s : String) (sep : Char) : List String :=
  pySplitOnAux sep s.data []

/-- Python `str.strip()`: drop leading and trailing whitespace. -/
def pyStrip (s : String) : String :=
  String.mk
    (((s.data.dropWhile Char.isWhitespace).reverse.dropWhile
      Char.isWhitespace).reverse)

/-- Result of one HTTP GET: `requests` response, reduced to the two
fields the scraper reads. -/
structure FetchResponse where
  status_code : Nat
  text : String

/-- A `li` element inside the nearby-places container, reduced to
what `get_nearby_places` reads: the text of its first `a` child and
of its first `span` child (`none` when the child is absent, in which
case Python raises `AttributeError` on `.text`). -/
structure LiItem where
  aText : Option String
  spanText : Option String
deriving DecidableEq

/-- The parsed detail-page fragment (`div#page-content`), reduced to
the pieces the `HTMLGeoScraper` getters read:
* `coordBold`: result of `find('b', text=re.compile('Coordinates'))`
  — `none` when no such bold element exists, otherwise the text of
  its `nextSibling` (`none` again when the sibling is absent).
* `h1Text`: text of the first `h1`, if any.
* `addressText`: text of the first `address` element, if any.
* `placeDescription`: text of `div#place-description`, if any.
* `nearbyPlaces`: the `li` items of `div#nearby-places`, when that
  container exists. -/
structure HtmlObject where
  coordBold : Option (Option String)
  h1Text : Option String
  addressText : Option String
  placeDescription : Option String
  nearbyPlaces : Option (List LiItem)
deriving DecidableEq

/-- Exceptions an `HTMLGeoScraper` getter can let escape. -/
inductive HtmlErr where
  | attrErrorAddress : HtmlErr
  | indexError : Nat → HtmlErr
  | attrErrorNearby : HtmlErr
  | attrErrorLi : HtmlErr
deriving DecidableEq

namespace HTMLGeoScraper

/-- Error message of `HTMLGeoScraper.__init__` on a non-200 status:
`f'{datetime.datetime.now()} ERROR: GeoScraper couldn't scrape {url}'`. -/
def scrapeErrMsg (now url : String) : String :=
  now ++ " ERROR: GeoScraper couldn\x27t scrape " ++ url

/-- `HTMLGeoScraper.__init__`: one GET of `url`; a non-200 status
raises, otherwise `self.html` is the body. -/
def init (url now : String) (res : FetchResponse) : Except String String :=
  if res.status_code ≠ 200 then
    .error (scrapeErrMsg now url)
  else
    .ok res.text

/-- `HTMLGeoScraper.get_geometry`: split the text after the bold
"Coordinates" label on whitespace; any failure (label absent, sibling
absent) is caught and yields an empty coordinate list. -/
def get_geometry (h : HtmlObject) : JValue :=
  let coordinates : List String :=
    match h.coordBold with
    | none => []
    | some none => []
    | some (some sib) => pySplit sib
  .obj [("type", .str "Point"), ("coordinates", .arr (coordinates.map .str))]

/-- `HTMLGeoScraper.get_title`: text of the first `h1`; any failure
is caught and yields `None`. Returns the dict `{'title': title}`. -/
def get_title (h : HtmlObject) : JValue :=
  .obj [("title", match h.h1Text with
    | some t => .str t
    | none => .null)]

/-- `HTMLGeoScraper.get_location`: whitespace-split the address text
and read tokens 0, 2 and 4 as country, state and place. No
`try`/`except`: a missing address element or an out-of-range index
escapes as an exception. -/
def get_location (h : HtmlObject) : Except HtmlErr JValue :=
  match h.addressText with
  | none => .error .attrErrorAddress
  | some t =>
    let address := pySplit t
    match address[0]? with
    | none => .error (.indexError 0)
    | some country =>
      match address[2]? with
      | none => .error (.indexError 2)
      | some state =>
        match address[4]? with
        | none => .error (.indexError 4)
        | some place =>
          .ok (.obj [("country", .str country), ("state", .str state),
                     ("place", .str place)])

/-- `HTMLGeoScraper.get_description`: the stripped text of
`div#place-description`, or explicitly `None` when the container is
absent; wrapped in the dict `{'description': ...}`. -/
def get_description (h : HtmlObject) : JValue :=
  .obj [("description", match h.placeDescription with
    | some t => .str (pyStrip t)
    | none => .null)]

/-- One iteration of the `get_nearby_places` loop: `place.a.text` and
`place.span.text` raise `AttributeError` when the child is absent. -/
def liToPlace (li : LiItem) : Except HtmlErr JValue :=
  match li.aText with
  | none => .error .attrErrorLi
  | some n =>
    match li.spanText with
    | none => .error .attrErrorLi
    | some d => .ok (.obj [("name", .str n), ("distance", .str d)])

/-- The `for place in nearby_places.find_all('li')` loop: build the
pair list item by item, the first failing item aborting the loop. -/
def placesLoop : List LiItem → Except HtmlErr (List JValue)
  | [] => .ok []
  | li :: rest => do
    let p ← liToPlace li
    let ps ← placesLoop rest
    return p :: ps

/-- `HTMLGeoScraper.get_nearby_places`: iterate the `li` items of
`div#nearby-places`. A missing container means `find` returned `None`
and `.find_all` raises `AttributeError`; nothing is caught. -/
def get_nearby_places (h : HtmlObject) : Except HtmlErr JValue :=
  match h.nearbyPlaces with
  | none => .error .attrErrorNearby
  | some lis => do
    let places ← placesLoop lis
    return .arr places

/-- `HTMLGeoScraper.get_properties`: assemble the four sub-fields;
exceptions from `get_location` and `get_nearby_places` escape. -/
def get_properties (h : HtmlObject) : Except HtmlErr JValue := do
  let title := get_title h
  let location ← get_location h
  let description := get_description h
  let nearby_places ← get_nearby_places h
  return .obj [("title", title), ("location", location),
               ("description", description), ("nearestPlaces", nearby_places)]

/-- `HTMLGeoScraper.parse_point_to_geoJSON`: the Feature dict with
the three fixed top-level keys. -/
def parse_point_to_geoJSON (h : HtmlObject) : Except HtmlErr JValue := do
  let geometry := get_geometry h
  let properties ← get_properties h
  return .obj [("type", .str "Feature"), ("geometry", geometry),
               ("properties", properties)]

end HTMLGeoScraper

/-- A parsed API JSON response: a Python dict, i.e. an association
list of keys and values (each key bound once). -/
abbrev ApiJson := List (String × JValue)

/-- Python `d[k]` on a dict: the bound value, `none` standing for the
`KeyError` the subscript raises when `k` is absent. -/
def jindex (j : ApiJson) (k : String) : Option JValue :=
  (List.find? (fun p => p.1 = k) j).map Prod.snd

namespace APIGeoScraper

/-- `APIGeoScraper.__init__`, first statement:
`self.id = url.split('/')[3]` — `none` models the `IndexError` when
the URL has fewer than four `/`-separated segments. -/
def extractId (url : String) : Option String :=
  (pySplitOn url '/')[3]?

/-- `APIGeoScraper.__init__`: read the id out of the URL, issue one
GET against the API, raise on a non-200 status (same message as the
HTML variant), otherwise parse the body as JSON. `parseJson` stands
for `json.loads` (`none` = `JSONDecodeError`). -/
def init (url now : String) (res : FetchResponse)
    (parseJson : String → Option ApiJson) : Except String ApiJson :=
  match extractId url with
  | none => .error "IndexError: list index out of range"
  | some _ =>
    if res.status_code ≠ 200 then
      .error (HTMLGeoScraper.scrapeErrMsg now url)
    else
      match parseJson res.text with
      | none => .error "JSONDecodeError"
      | some j => .ok j

/-- `APIGeoScraper.get_geometry`: `self.json['polygon']`, with the
`KeyError` caught and replaced by an empty list. -/
def get_geometry (j : ApiJson) : JValue :=
  .obj [("type", .str "polygon"),
        ("coordinates", (jindex j "polygon").getD (.arr []))]

/-- `APIGeoScraper.get_location`: `self.json['location']`, with the
`KeyError` caught and replaced by `None`. -/
def get_location (j : ApiJson) : JValue :=
  (jindex j "location").getD .null

/-- `APIGeoScraper.get_description`: `self.json['description']`, with
the `KeyError` caught and replaced by `None`. -/
def get_description (j : ApiJson) : JValue :=
  (jindex j "description").getD .null

/-- `APIGeoScraper.get_nearby_places`: `self.json['nearestPlaces']`,
with the `KeyError` caught and replaced by `None`. -/
def get_nearby_places (j : ApiJson) : JValue :=
  (jindex j "nearestPlaces").getD .null

/-- `APIGeoScraper.get_title`: `self.json['title']`, with the
`KeyError` caught and replaced by `None`. -/
def get_title (j : ApiJson) : JValue :=
  (jindex j "title").getD .null

/-- `APIGeoScraper.get_properties`: assemble the four sub-fields;
every getter is total. -/
def get_properties (j : ApiJson) : JValue :=
  .obj [("title", get_title j), ("location", get_location j),
        ("description", get_description j),
        ("nearestPlaces", get_nearby_places j)]

/-- `APIGeoScraper.parse_point_to_geoJSON`: the Feature dict with the
three fixed top-level keys. -/
def parse_point_to_geoJSON (j : ApiJson) : JValue :=
  .obj [("type", .str "Feature"), ("geometry", get_geometry j),
        ("properties", get_properties j)]

end APIGeoScraper

/-- `check_last_page`: one GET of `url`; a non-200 status is logged
and yields `None`, otherwise the body text is returned. -/
def check_last_page (url : String) (fetch : String → FetchResponse) :
    Option String :=
  let res := fetch url
  if res.status_code ≠ 200 then none else some res.text

/-- An anchor (`a` element) inside the `div.span3` listing fragment:
its `href` value when the attribute is present, and whether it
carries the `data-url` attribute. -/
structure Anchor where
  href : Option String
  dataUrl : Bool
deriving DecidableEq

/-- Body of the list comprehension in `get_wikimapia_links_from_html`:
`find_all('a', attrs={'href': True, 'data-url': False})` keeps the
anchors that have an `href` and do not carry `data-url`, in document
order, and `a['href']` reads the attribute. -/
def linksFromFragment (anchors : List Anchor) : List String :=
  (anchors.filter (fun a => a.href.isSome && !a.dataUrl)).filterMap
    (fun a => a.href)

/-- `get_wikimapia_links_from_html`: join the URL parts, fetch the
page, return `None` when `check_last_page` failed or the body is
falsy (empty), otherwise collect the links of the `div.span3`
fragment. `parseAnchors` stands for the BeautifulSoup parse of the
page restricted by the `SoupStrainer`. -/
def get_wikimapia_links_from_html (url_parts : List String)
    (fetch : String → FetchResponse)
    (parseAnchors : String → List Anchor) : Option (List String) :=
  let link := String.join url_parts
  match check_last_page link fetch with
  | none => none
  | some page_html =>
    if page_html = "" then none
    else some (linksFromFragment (parseAnchors page_html))

/-- A minimal `json.dumps` for `JValue` (string escaping limited to
quotes and backslashes, enough for the serialised Feature lines). -/
def dumpsStr (s : String) : String :=
  "\x22" ++ (s.foldl (fun acc c =>
    if c = '\x22' ∨ c = '\\' then acc ++ "\\" ++ c.toString
    else acc ++ c.toString) "") ++ "\x22"

/-- JSON serialisation of a `JValue`, as `json.dumps` renders it with
default separators. -/
def JValue.dumps : JValue → String
  | .null => "null"
  | .str s => dumpsStr s
  | .arr l => "[" ++ String.intercalate ", " (l.attach.map
      (fun v => v.1.dumps)) ++ "]"
  | .obj l => "\x7b" ++ String.intercalate ", " (l.attach.map
      (fun p => dumpsStr p.1.1 ++ ": " ++ p.1.2.dumps)) ++ "\x7d"
decreasing_by
  all_goals simp_wf
  · have h1 := List.sizeOf_lt_of_mem v.2
    omega
  · have h1 := List.sizeOf_lt_of_mem p.2
    have h2 : sizeOf p.1.2 < sizeOf p.1 := by
      obtain ⟨⟨a, b⟩, hp⟩ := p
      simp
    omega

/-- The two sinks of `__call__`: lines appended to the output file
and documents inserted into the store. -/
structure SinkWrites where
  fileAppends : List String
  dbInserts : List JValue

/-- The HTML pipeline for one URL: construct the scraper (`__init__`),
then `__call__` — parse to a Feature, append `dumps(geo_json)+',\n'`
to the file and insert the Feature into the store. Nothing is written
when construction or extraction fails. `parse` stands for the
BeautifulSoup parse of the page restricted to `div#page-content`. -/
def runHtmlPipeline (url now : String) (res : FetchResponse)
    (parse : String → HtmlObject) : Except String JValue × SinkWrites :=
  match HTMLGeoScraper.init url now res with
  | .error e => (.error e, ⟨[], []⟩)
  | .ok html =>
    match HTMLGeoScraper.parse_point_to_geoJSON (parse html) with
    | .error _ => (.error "AttributeError or IndexError", ⟨[], []⟩)
    | .ok geo_json => (.ok geo_json, ⟨[geo_json.dumps ++ ",\n"], [geo_json]⟩)

/-- The API pipeline for one URL: construct the scraper (`__init__`),
then `__call__` with the same two sinks; extraction is total. -/
def runApiPipeline (url now : String) (res : FetchResponse)
    (parseJson : String → Option ApiJson) : Except String JValue × SinkWrites :=
  match APIGeoScraper.init url now res parseJson with
  | .error e => (.error e, ⟨[], []⟩)
  | .ok j =>
    let geo_json := APIGeoScraper.parse_point_to_geoJSON j
    (.ok geo_json, ⟨[geo_json.dumps ++ ",\n"], [geo_json]⟩)

example : pySplit "Israel , Tel Aviv District , Tel Aviv" =
    ["Israel", ",", "Tel", "Aviv", "District", ",", "Tel", "Aviv"] := by rfl

example : pySplit "31.768 35.213" = ["31.768", "35.213"] := by rfl

/-- C1: whenever extraction succeeds, `parse_point_to_geoJSON` (HTML
and API variant alike) returns an object with exactly the three
top-level keys `type`, `geometry`, `properties`, and `type` is the
constant `"Feature"`, however many sub-fields were missing. -/
theorem extract_feature_shape (h : HtmlObject) (j : ApiJson) (gj : JValue)
    (hok : HTMLGeoScraper.parse_point_to_geoJSON h = .ok gj) :
    gj.keys = ["type", "geometry", "properties"] ∧
    gj.get "type" = some (.str "Feature") ∧
    (APIGeoScraper.parse_point_to_geoJSON j).keys =
      ["type", "geometry", "properties"] ∧
    (APIGeoScraper.parse_point_to_geoJSON j).get "type" =
      some (.str "Feature") := by
  refine ⟨?_, ?_, rfl, rfl⟩ <;>
  · simp only [HTMLGeoScraper.parse_point_to_geoJSON, bind, Except.bind] at hok
    cases hp : HTMLGeoScraper.get_properties h with
    | error e => rw [hp] at hok; cases hok
    | ok p =>
      rw [hp] at hok
      cases hok
      rfl

/-- Witness for C1: a detail page with no coordinates label, no
title, no description and an empty nearby-places list still yields a
Feature with exactly the three top-level keys, as does the empty API
response. -/
theorem extract_feature_shape_witness :
    (JValue.obj [("type", JValue.str "Feature"),
      ("geometry", JValue.obj [("type", JValue.str "Point"),
        ("coordinates", JValue.arr [])]),
      ("properties", JValue.obj [("title", JValue.obj [("title", JValue.null)]),
        ("location", JValue.obj [("country", JValue.str "Israel"),
          ("state", JValue.str "Center"), ("place", JValue.str "Netanya")]),
        ("description", JValue.obj [("description", JValue.null)]),
        ("nearestPlaces", JValue.arr [])])]).keys =
      ["type", "geometry", "properties"] ∧
    (JValue.obj [("type", JValue.str "Feature"),
      ("geometry", JValue.obj [("type", JValue.str "Point"),
        ("coordinates", JValue.arr [])]),
      ("properties", JValue.obj [("title", JValue.obj [("title", JValue.null)]),
        ("location", JValue.obj [("country", JValue.str "Israel"),
          ("state", JValue.str "Center"), ("place", JValue.str "Netanya")]),
        ("description", JValue.obj [("description", JValue.null)]),
        ("nearestPlaces", JValue.arr [])])]).get "type" =
      some (.str "Feature") ∧
    (APIGeoScraper.parse_point_to_geoJSON []).keys =
      ["type", "geometry", "properties"] ∧
    (APIGeoScraper.parse_point_to_geoJSON []).get "type" =
      some (.str "Feature") :=
  extract_feature_shape
    ⟨none, none, some "Israel , Center , Netanya", none, some []⟩ [] _ rfl

/-- C3: each API getter substitutes `None` when its key is absent
from the parsed response (`get_geometry` substitutes the empty
coordinate sequence); no getter raises on a missing key. -/
theorem api_getters_missing_key (j : ApiJson) :
    (jindex j "title" = none → APIGeoScraper.get_title j = .null) ∧
    (jindex j "location" = none → APIGeoScraper.get_location j = .null) ∧
    (jindex j "description" = none →
      APIGeoScraper.get_description j = .null) ∧
    (jindex j "nearestPlaces" = none →
      APIGeoScraper.get_nearby_places j = .null) ∧
    (jindex j "polygon" = none → APIGeoScraper.get_geometry j =
      .obj [("type", .str "polygon"), ("coordinates", .arr [])]) := by
  refine ⟨fun h => ?_, fun h => ?_, fun h => ?_, fun h => ?_, fun h => ?_⟩ <;>
    simp [APIGeoScraper.get_title, APIGeoScraper.get_location,
          APIGeoScraper.get_description, APIGeoScraper.get_nearby_places,
          APIGeoScraper.get_geometry, h]

/-- Witness for C3: the empty API response has none of the five keys,
and every getter degrades as stated. -/
theorem api_getters_missing_key_witness :
    APIGeoScraper.get_title [] = .null ∧
    APIGeoScraper.get_location [] = .null ∧
    APIGeoScraper.get_description [] = .null ∧
    APIGeoScraper.get_nearby_places [] = .null ∧
    APIGeoScraper.get_geometry [] =
      .obj [("type", .str "polygon"), ("coordinates", .arr [])] :=
  ⟨(api_getters_missing_key []).1 rfl,
   (api_getters_missing_key []).2.1 rfl,
   (api_getters_missing_key []).2.2.1 rfl,
   (api_getters_missing_key []).2.2.2.1 rfl,
   (api_getters_missing_key []).2.2.2.2 rfl⟩

/-- C4: when the bold "Coordinates" label is absent, or its adjacent
sibling is, `HTMLGeoScraper.get_geometry` returns exactly
`{"type": "Point", "coordinates": []}` without propagating any
error. -/
theorem html_get_geometry_fallback (h : HtmlObject)
    (hc : h.coordBold = none ∨ h.coordBold = some none) :
    HTMLGeoScraper.get_geometry h =
      .obj [("type", .str "Point"), ("coordinates", .arr [])] := by
  rcases hc with hc | hc <;> simp [HTMLGeoScraper.get_geometry, hc]

/-- Witness for C4: a page with no "Coordinates" label yields the
empty Point geometry. -/
theorem html_get_geometry_fallback_witness :
    HTMLGeoScraper.get_geometry ⟨none, none, none, none, none⟩ =
      .obj [("type", .str "Point"), ("coordinates", .arr [])] :=
  html_get_geometry_fallback ⟨none, none, none, none, none⟩ (Or.inl rfl)

/-- C9: when the description container is absent, the dict returned
by `HTMLGeoScraper.get_description` still carries the `description`
key, explicitly bound to `None`; when present, the value is the
container's stripped text. -/
theorem html_get_description_null (h : HtmlObject) :
    (h.placeDescription = none →
      HTMLGeoScraper.get_description h =
        .obj [("description", JValue.null)]) ∧
    (∀ t, h.placeDescription = some t →
      HTMLGeoScraper.get_description h =
        .obj [("description", .str (pyStrip t))]) := by
  refine ⟨fun hd => ?_, fun t hd => ?_⟩ <;>
    simp [HTMLGeoScraper.get_description, hd]

/-- Witness for C9: a page without the container yields an explicit
null description; one with text `" a park "` yields `"a park"`. -/
theorem html_get_description_null_witness :
    HTMLGeoScraper.get_description ⟨none, none, none, none, none⟩ =
      .obj [("description", JValue.null)] ∧
    HTMLGeoScraper.get_description ⟨none, none, none, some " a park ", none⟩ =
      .obj [("description", JValue.str "a park")] :=
  ⟨(html_get_description_null ⟨none, none, none, none, none⟩).1 rfl,
   (html_get_description_null ⟨none, none, none, some " a park ", none⟩).2
     " a park " rfl⟩

/-- Counterexample for C2: on the address text
`"Israel , Tel Aviv District , Tel Aviv"` the whitespace split is
`["Israel", ",", "Tel", "Aviv", "District", ",", "Tel", "Aviv"]`, so
the fixed positions 0, 2 and 4 hold `"Israel"`, `"Tel"` and
`"District"` — not the claimed state `"Tel Aviv District"` and place
`"Tel Aviv"`. -/
theorem get_location_telaviv_counterexample :
    HTMLGeoScraper.get_location
      ⟨none, none, some "Israel , Tel Aviv District , Tel Aviv",
        none, none⟩ ≠
    .ok (.obj [("country", .str "Israel"),
               ("state", .str "Tel Aviv District"),
               ("place", .str "Tel Aviv")]) := by
  intro hc
  rw [show HTMLGeoScraper.get_location
      ⟨none, none, some "Israel , Tel Aviv District , Tel Aviv",
        none, none⟩ =
    .ok (.obj [("country", .str "Israel"), ("state", .str "Tel"),
               ("place", .str "District")]) from rfl] at hc
  simp at hc

/-- C2 as amended: `get_location` reads the raw whitespace-split
tokens at positions 0, 2 and 4, so on the address text
`"Israel , Tel Aviv District , Tel Aviv"` (where the literal `","`
tokens sit at positions 1 and 5, and multi-word names span several
tokens) it returns `{"country": "Israel", "state": "Tel",
"place": "District"}`. -/
theorem get_location_telaviv_tokens :
    HTMLGeoScraper.get_location
      ⟨none, none, some "Israel , Tel Aviv District , Tel Aviv",
        none, none⟩ =
    .ok (.obj [("country", .str "Israel"), ("state", .str "Tel"),
               ("place", .str "District")]) := rfl

/-- Helper for C6: mapping the loop body over `li` items that all
have both an anchor and a span succeeds with one name/distance pair
per item. -/
theorem placesLoop_all_present (items : List (String × String)) :
    HTMLGeoScraper.placesLoop
      (items.map fun it => LiItem.mk (some it.1) (some it.2)) =
    Except.ok (items.map fun it =>
      JValue.obj [("name", .str it.1), ("distance", .str it.2)]) := by
  induction items with
  | nil => rfl
  | cons it its ih =>
    simp [HTMLGeoScraper.placesLoop, HTMLGeoScraper.liToPlace, ih,
          bind, Except.bind, pure, Except.pure]

/-- C6: when the nearby-places container is absent,
`get_nearby_places` propagates the `AttributeError` (no fallback,
unlike the other HTML getters); when it is present it returns one
name/distance pair per `li` item, pairing the item's link text with
its label text, in order. -/
theorem html_get_nearby_places_policy (h : HtmlObject) :
    (h.nearbyPlaces = none →
      HTMLGeoScraper.get_nearby_places h =
        .error .attrErrorNearby) ∧
    (∀ items : List (String × String),
      h.nearbyPlaces = some (items.map fun it => ⟨some it.1, some it.2⟩) →
      HTMLGeoScraper.get_nearby_places h =
        .ok (.arr (items.map fun it =>
          .obj [("name", .str it.1), ("distance", .str it.2)]))) := by
  constructor
  · intro hn
    simp [HTMLGeoScraper.get_nearby_places, hn]
  · intro items hn
    simp [HTMLGeoScraper.get_nearby_places, hn, placesLoop_all_present,
          bind, Except.bind, pure, Except.pure]

/-- Witness for C6: a page without the container fails hard; one with
a single item pairs its link text with its label text. -/
theorem html_get_nearby_places_policy_witness :
    HTMLGeoScraper.get_nearby_places ⟨none, none, none, none, none⟩ =
      .error .attrErrorNearby ∧
    HTMLGeoScraper.get_nearby_places
      ⟨none, none, none, none, some [⟨some "Beach", some "100 m"⟩]⟩ =
      .ok (.arr [.obj [("name", .str "Beach"),
                       ("distance", .str "100 m")]]) :=
  ⟨(html_get_nearby_places_policy ⟨none, none, none, none, none⟩).1 rfl,
   (html_get_nearby_places_policy
      ⟨none, none, none, none, some [⟨some "Beach", some "100 m"⟩]⟩).2
     [("Beach", "100 m")] rfl⟩

/-- Counterexample for C7: an address block whose text splits into
zero tokens (here the empty text) makes `get_location` fail at
position 0 — the very first access `address[0]` — not at position 2
or 4 as claimed. -/
theorem get_location_empty_address_counterexample :
    HTMLGeoScraper.get_location ⟨none, none, some "", none, none⟩ =
      .error (.indexError 0) ∧
    ¬ (HTMLGeoScraper.get_location ⟨none, none, some "", none, none⟩ =
        .error (.indexError 2) ∨
       HTMLGeoScraper.get_location ⟨none, none, some "", none, none⟩ =
        .error (.indexError 4)) := by
  refine ⟨rfl, ?_⟩
  rw [show HTMLGeoScraper.get_location ⟨none, none, some "", none, none⟩ =
      .error (.indexError 0) from rfl]
  rintro (hc | hc) <;> simp at hc

/-- C7 as amended: an address with fewer than five whitespace tokens
makes `get_location` fail with an index error, with no bounds check
and no fallback; the failing position is 0 for an empty token list,
2 for one or two tokens, and 4 for three or four. -/
theorem get_location_short_address (h : HtmlObject) (t : String)
    (ha : h.addressText = some t) (hlen : (pySplit t).length < 5) :
    HTMLGeoScraper.get_location h =
      .error (.indexError
        (if (pySplit t).length = 0 then 0
         else if (pySplit t).length ≤ 2 then 2 else 4)) := by
  by_cases h0 : (pySplit t).length = 0
  · have e0 : (pySplit t)[0]? = none := List.getElem?_eq_none (by omega)
    simp [HTMLGeoScraper.get_location, ha, e0, h0]
  · by_cases h2 : (pySplit t).length ≤ 2
    · obtain ⟨c0, e0⟩ : ∃ c, (pySplit t)[0]? = some c :=
        ⟨_, List.getElem?_eq_getElem (by omega)⟩
      have e2 : (pySplit t)[2]? = none := List.getElem?_eq_none (by omega)
      simp [HTMLGeoScraper.get_location, ha, e0, e2, h0, h2]
    · obtain ⟨c0, e0⟩ : ∃ c, (pySplit t)[0]? = some c :=
        ⟨_, List.getElem?_eq_getElem (by omega)⟩
      obtain ⟨c2, e2⟩ : ∃ c, (pySplit t)[2]? = some c :=
        ⟨_, List.getElem?_eq_getElem (by omega)⟩
      have e4 : (pySplit t)[4]? = none := List.getElem?_eq_none (by omega)
      simp [HTMLGeoScraper.get_location, ha, e0, e2, e4, h0, h2]

/-- Witness for C7 as amended: the two-token address `"Israel ,"`
fails at position 2. -/
theorem get_location_short_address_witness :
    (pySplit "Israel ,").length < 5 ∧
    HTMLGeoScraper.get_location ⟨none, none, some "Israel ,", none, none⟩ =
      .error (.indexError 2) :=
  ⟨by decide,
   get_location_short_address ⟨none, none, some "Israel ,", none, none⟩
     "Israel ," rfl (by decide)⟩

/-- C8: over a listing fragment whose anchors all carry an `href` and
of which exactly those marked with `data-url` are excluded, the link
collector returns exactly the unmarked anchors' `href` values in
document order — hence N − K links out of N anchors with K marked —
and an empty collection (not an error) when no anchor matches. -/
theorem links_filter_order (items : List (String × Bool)) :
    linksFromFragment (items.map fun it => ⟨some it.1, it.2⟩) =
      (items.filter (fun it => !it.2)).map Prod.fst ∧
    (linksFromFragment (items.map fun it => ⟨some it.1, it.2⟩)).length =
      items.length - (items.filter (fun it => it.2)).length ∧
    linksFromFragment [] = [] := by
  have key : linksFromFragment (items.map fun it => ⟨some it.1, it.2⟩) =
      (items.filter (fun it => !it.2)).map Prod.fst := by
    induction items with
    | nil => rfl
    | cons it its ih =>
      cases hb : it.2 <;>
        simp_all [linksFromFragment, List.filter_cons, hb]
  have sum : ∀ l : List (String × Bool),
      (l.filter (fun it => it.2)).length +
        (l.filter (fun it => !it.2)).length = l.length := by
    intro l
    induction l with
    | nil => rfl
    | cons it its ih =>
      cases hb : it.2 <;> simp [List.filter_cons, hb] <;> omega
  refine ⟨key, ?_, rfl⟩
  rw [key]
  have := sum items
  simp only [List.length_map]
  omega

/-- C10: a listing fetch that succeeds with status 200 but an empty
body makes the link collector return `None`, exactly as a non-200
status does, because `if not page_html` tests the truthiness of the
returned text and the empty string is falsy. -/
theorem links_empty_body_absent (url_parts : List String)
    (fetch : String → FetchResponse) (parseAnchors : String → List Anchor) :
    ((fetch (String.join url_parts)).status_code = 200 →
      (fetch (String.join url_parts)).text = "" →
      get_wikimapia_links_from_html url_parts fetch parseAnchors = none) ∧
    ((fetch (String.join url_parts)).status_code ≠ 200 →
      get_wikimapia_links_from_html url_parts fetch parseAnchors = none) := by
  constructor
  · intro hst htxt
    simp [get_wikimapia_links_from_html, check_last_page, hst, htxt]
  · intro hst
    simp [get_wikimapia_links_from_html, check_last_page, hst]

/-- Witness for C10: a server answering 200 with an empty body and
one answering 404 both make the collector return `None`. -/
theorem links_empty_body_absent_witness :
    get_wikimapia_links_from_html ["http://wikimapia.org/", "country"]
      (fun _ => ⟨200, ""⟩) (fun _ => []) = none ∧
    get_wikimapia_links_from_html ["http://wikimapia.org/", "country"]
      (fun _ => ⟨404, "Not Found"⟩) (fun _ => []) = none :=
  ⟨(links_empty_body_absent ["http://wikimapia.org/", "country"]
      (fun _ => ⟨200, ""⟩) (fun _ => [])).1 rfl rfl,
   (links_empty_body_absent ["http://wikimapia.org/", "country"]
      (fun _ => ⟨404, "Not Found"⟩) (fun _ => [])).2 (by decide)⟩

/-- C5: a non-200 fetch makes construction of either scraper raise an
error whose message carries the timestamp and the URL; the pipeline
produces no Feature and writes nothing to the output file or to the
document store. -/
theorem fetch_failure_no_write (url now : String) (res : FetchResponse)
    (parse : String → HtmlObject) (parseJson : String → Option ApiJson)
    (hid : 4 ≤ (pySplitOn url '/').length)
    (hst : res.status_code ≠ 200) :
    runHtmlPipeline url now res parse =
      (.error (HTMLGeoScraper.scrapeErrMsg now url), ⟨[], []⟩) ∧
    runApiPipeline url now res parseJson =
      (.error (HTMLGeoScraper.scrapeErrMsg now url), ⟨[], []⟩) ∧
    HTMLGeoScraper.scrapeErrMsg now url =
      now ++ " ERROR: GeoScraper couldn\x27t scrape " ++ url := by
  refine ⟨?_, ?_, rfl⟩
  · simp [runHtmlPipeline, HTMLGeoScraper.init, hst]
  · obtain ⟨i, hi⟩ : ∃ i, (APIGeoScraper.extractId url) = some i :=
      ⟨_, List.getElem?_eq_getElem (by omega)⟩
    simp [runApiPipeline, APIGeoScraper.init, hi, hst]

/-- Witness for C5: a 404 on a well-formed point URL yields the
error tuple with empty sinks for both variants. -/
theorem fetch_failure_no_write_witness :
    runHtmlPipeline "http://wikimapia.org/12345/Place" "2021-01-01"
      ⟨404, "Not Found"⟩ (fun _ => ⟨none, none, none, none, none⟩) =
      (.error ("2021-01-01 ERROR: GeoScraper couldn\x27t scrape " ++
        "http://wikimapia.org/12345/Place"), ⟨[], []⟩) ∧
    runApiPipeline "http://wikimapia.org/12345/Place" "2021-01-01"
      ⟨404, "Not Found"⟩ (fun _ => none) =
      (.error ("2021-01-01 ERROR: GeoScraper couldn\x27t scrape " ++
        "http://wikimapia.org/12345/Place"), ⟨[], []⟩) ∧
    HTMLGeoScraper.scrapeErrMsg "2021-01-01"
      "http://wikimapia.org/12345/Place" =
      "2021-01-01" ++ " ERROR: GeoScraper couldn\x27t scrape " ++
        "http://wikimapia.org/12345/Place" :=
  fetch_failure_no_write "http://wikimapia.org/12345/Place" "2021-01-01"
    ⟨404, "Not Found"⟩ (fun _ => ⟨none, none, none, none, none⟩)
    (fun _ => none) (by decide) (by decide)
